import Mathlib

/-!
Shallow embedding of the FinApp superannuation projection engine
(`src/utils/formatting.ts`: `projectSuperannuationBalance` and
`projectPostRetirement`, with the policy constants of `src/constants.ts`).

Monetary amounts and rates are modelled as exact rationals (ℚ), ages as
integers (ℤ).  The JavaScript expression `new Date().getFullYear()` is
modelled by an explicit parameter `nowYear : ℤ`: both projectors read the
wall clock exactly once per record to compute the `year` field, so every
function below takes `nowYear` explicitly.
-/

namespace FinApp

/-- `SUPER_GUARANTEE_RATE = 0.115` (src/constants.ts). -/
def SUPER_GUARANTEE_RATE : ℚ := 115 / 1000

/-- `CONCESSIONAL_CONTRIBUTION_CAP = 27500` (src/constants.ts). -/
def CONCESSIONAL_CONTRIBUTION_CAP : ℚ := 27500

/-- `NON_CONCESSIONAL_CONTRIBUTION_CAP = 110000` (src/constants.ts). -/
def NON_CONCESSIONAL_CONTRIBUTION_CAP : ℚ := 110000

/-- `TOTAL_SUPER_BALANCE_LIMIT_FOR_NON_CONCESSIONAL = 1900000` (src/constants.ts). -/
def TOTAL_SUPER_BALANCE_LIMIT_FOR_NON_CONCESSIONAL : ℚ := 1900000

/-- `SUPER_EARNINGS_TAX_RATE = 0.15` (src/constants.ts). -/
def SUPER_EARNINGS_TAX_RATE : ℚ := 15 / 100

/-- `SuperannuationInputs` (src/types.ts). -/
structure SuperannuationInputs where
  currentAge : ℤ
  retirementAge : ℤ
  currentBalance : ℚ
  annualSalary : ℚ
  voluntaryConcessionalContribution : ℚ
  voluntaryNonConcessionalContribution : ℚ
  expectedReturnRate : ℚ
  salaryGrowthRate : ℚ
  inflationRate : ℚ
  deriving DecidableEq, Repr

/-- `PostRetirementInputs` (src/types.ts); the optional `superDrawdownRate`
field is never read by `projectPostRetirement` and is omitted. -/
structure PostRetirementInputs where
  annualLivingExpenses : ℚ
  otherInvestmentIncome : ℚ
  deriving DecidableEq, Repr

/-- `SuperYearProjection` (src/types.ts).  The two optional fields are
`Option ℚ` (`none` models the field being absent / `undefined`). -/
structure SuperYearProjection where
  year : ℤ
  age : ℤ
  startingBalance : ℚ
  sgContributions : ℚ
  voluntaryConcessional : ℚ
  voluntaryNonConcessional : ℚ
  totalConcessional : ℚ
  investmentReturns : ℚ
  taxOnEarnings : ℚ
  endingBalance : ℚ
  concessionalCapExceededBy : Option ℚ
  nonConcessionalCapExceededBy : Option ℚ
  deriving DecidableEq, Repr

/-- `PostRetirementYearProjection` (src/types.ts). -/
structure PostRetirementYearProjection where
  year : ℤ
  age : ℤ
  startingBalance : ℚ
  investmentReturns : ℚ
  drawdown : ℚ
  otherIncome : ℚ
  totalIncome : ℚ
  shortfall : Option ℚ
  endingBalance : ℚ
  deriving DecidableEq, Repr

/-- One iteration of the loop body of `projectSuperannuationBalance`
(src/utils/formatting.ts lines 67–116), at loop state
(`age`, `currentBalance`, `currentSalary`). -/
def accumYear (inputs : SuperannuationInputs) (nowYear age : ℤ)
    (currentBalance currentSalary : ℚ) : SuperYearProjection :=
  let year := nowYear + (age - inputs.currentAge)
  let sgContributions := currentSalary * SUPER_GUARANTEE_RATE
  let voluntaryConcessional := inputs.voluntaryConcessionalContribution
  let totalConcessional := sgContributions + voluntaryConcessional
  let concessionalCapExceededBy : Option ℚ :=
    if CONCESSIONAL_CONTRIBUTION_CAP < totalConcessional then
      some (totalConcessional - CONCESSIONAL_CONTRIBUTION_CAP)
    else none
  let voluntaryNonConcessional := inputs.voluntaryNonConcessionalContribution
  let currentNonConcessionalCap : ℚ :=
    if TOTAL_SUPER_BALANCE_LIMIT_FOR_NON_CONCESSIONAL ≤ currentBalance then 0
    else NON_CONCESSIONAL_CONTRIBUTION_CAP
  let nonConcessionalCapExceededBy : Option ℚ :=
    if currentNonConcessionalCap < voluntaryNonConcessional then
      some (voluntaryNonConcessional - currentNonConcessionalCap)
    else none
  let effectiveNonConcessional := min voluntaryNonConcessional currentNonConcessionalCap
  let balanceBeforeReturns := currentBalance + totalConcessional + effectiveNonConcessional
  let investmentReturns := balanceBeforeReturns * (inputs.expectedReturnRate / 100)
  let taxOnEarnings := if 0 < investmentReturns then investmentReturns * SUPER_EARNINGS_TAX_RATE else 0
  let endingBalance := balanceBeforeReturns + investmentReturns - taxOnEarnings
  { year := year, age := age, startingBalance := currentBalance,
    sgContributions := sgContributions, voluntaryConcessional := voluntaryConcessional,
    voluntaryNonConcessional := effectiveNonConcessional,
    totalConcessional := totalConcessional, investmentReturns := investmentReturns,
    taxOnEarnings := taxOnEarnings, endingBalance := endingBalance,
    concessionalCapExceededBy := concessionalCapExceededBy,
    nonConcessionalCapExceededBy := nonConcessionalCapExceededBy }

/-- The `for (age = currentAge; age < retirementAge; age++)` loop of
`projectSuperannuationBalance`, structurally recursive on the number of
remaining iterations.  State carried between iterations: `age`,
`currentBalance` (the previous ending balance) and `currentSalary`
(grown by the salary growth rate after each year). -/
def accumLoop (inputs : SuperannuationInputs) (nowYear : ℤ) :
    Nat → ℤ → ℚ → ℚ → List SuperYearProjection
  | 0, _, _, _ => []
  | n + 1, age, currentBalance, currentSalary =>
    let r := accumYear inputs nowYear age currentBalance currentSalary
    r :: accumLoop inputs nowYear n (age + 1) r.endingBalance
      (currentSalary * (1 + inputs.salaryGrowthRate / 100))

/-- `projectSuperannuationBalance` (src/utils/formatting.ts lines 62–122).
For integer ages the loop runs exactly `(retirementAge - currentAge).toNat`
iterations starting at `currentAge`. -/
def projectSuperannuationBalance (inputs : SuperannuationInputs) (nowYear : ℤ) :
    List SuperYearProjection :=
  accumLoop inputs nowYear (inputs.retirementAge - inputs.currentAge).toNat
    inputs.currentAge inputs.currentBalance inputs.annualSalary

/-- One iteration of the loop body of `projectPostRetirement`
(src/utils/formatting.ts lines 136–171), at loop state (`i`,
`currentBalance`, `currentAnnualLivingExpenses`).  The drawdown computed at
lines 145–149 is overwritten wholesale by lines 154–155, whose net effect
is `max 0 (min (expenses − otherIncome) balanceAfterReturns)`. -/
def drawYear (superInputs : SuperannuationInputs) (postRetirementInputs : PostRetirementInputs)
    (nowYear retirementAge : ℤ) (i : Nat) (currentBalance expenses : ℚ) :
    PostRetirementYearProjection :=
  let age : ℤ := retirementAge + i
  let year := nowYear + (age - superInputs.currentAge)
  let investmentReturns := currentBalance * (superInputs.expectedReturnRate / 100)
  let balanceAfterReturns := currentBalance + investmentReturns
  let drawdown := max 0 (min (expenses - postRetirementInputs.otherInvestmentIncome) balanceAfterReturns)
  let endingBalance := balanceAfterReturns - drawdown
  let totalIncomeAvailable := drawdown + postRetirementInputs.otherInvestmentIncome
  let shortfall : Option ℚ :=
    if totalIncomeAvailable < expenses then some (expenses - totalIncomeAvailable) else none
  { year := year, age := age, startingBalance := currentBalance,
    investmentReturns := investmentReturns, drawdown := drawdown,
    otherIncome := postRetirementInputs.otherInvestmentIncome,
    totalIncome := totalIncomeAvailable, shortfall := shortfall,
    endingBalance := max 0 endingBalance }

/-- The raw (un-floored) ending balance of a drawdown record: the local
variable `endingBalance` of the source before `Math.max(0, ·)` is applied
for the stored field.  The source both tests `endingBalance <= 0` for the
break and carries this raw value forward as the next starting balance. -/
def rawEnd (r : PostRetirementYearProjection) : ℚ :=
  r.startingBalance + r.investmentReturns - r.drawdown

/-- The `for (i = 0; i < maxYears; i++)` loop of `projectPostRetirement`,
structurally recursive on the remaining iterations.  Faithfully keeps the
`if (currentBalance <= 0 && i > 0) break` guard of line 138 (which is in
fact unreachable, since the line 173 break already fires whenever the
carried balance is ≤ 0) and the `if (endingBalance <= 0) break` of
line 173. -/
def drawLoop (superInputs : SuperannuationInputs) (postRetirementInputs : PostRetirementInputs)
    (nowYear retirementAge : ℤ) :
    Nat → Nat → ℚ → ℚ → List PostRetirementYearProjection
  | 0, _, _, _ => []
  | fuel + 1, i, currentBalance, expenses =>
    if currentBalance ≤ 0 ∧ 0 < i then []
    else
      let r := drawYear superInputs postRetirementInputs nowYear retirementAge i currentBalance expenses
      if rawEnd r ≤ 0 then [r]
      else r :: drawLoop superInputs postRetirementInputs nowYear retirementAge fuel (i + 1)
        (rawEnd r) (expenses * (1 + superInputs.inflationRate / 100))

/-- `projectPostRetirement` (src/utils/formatting.ts lines 125–181).
`maxYears` defaults to 35 at the call sites; here it is an explicit
argument. -/
def projectPostRetirement (startingRetirementBalance : ℚ) (retirementAge : ℤ)
    (superInputs : SuperannuationInputs) (postRetirementInputs : PostRetirementInputs)
    (maxYears : Nat) (nowYear : ℤ) : List PostRetirementYearProjection :=
  drawLoop superInputs postRetirementInputs nowYear retirementAge maxYears 0
    startingRetirementBalance postRetirementInputs.annualLivingExpenses

/-- All fields of an accumulation record except the wall-clock-derived
`year`. -/
def stripSuperYear (r : SuperYearProjection) :
    ℤ × ℚ × ℚ × ℚ × ℚ × ℚ × ℚ × ℚ × ℚ × Option ℚ × Option ℚ :=
  (r.age, r.startingBalance, r.sgContributions, r.voluntaryConcessional,
   r.voluntaryNonConcessional, r.totalConcessional, r.investmentReturns,
   r.taxOnEarnings, r.endingBalance, r.concessionalCapExceededBy,
   r.nonConcessionalCapExceededBy)

/-- All fields of a drawdown record except the wall-clock-derived `year`. -/
def stripPostYear (r : PostRetirementYearProjection) :
    ℤ × ℚ × ℚ × ℚ × ℚ × ℚ × Option ℚ × ℚ :=
  (r.age, r.startingBalance, r.investmentReturns, r.drawdown, r.otherIncome,
   r.totalIncome, r.shortfall, r.endingBalance)

/-- Spec §8 Example 1 input: one accumulation year, salary 80000, all other
amounts and rates zero. -/
def exInput : SuperannuationInputs :=
  { currentAge := 30, retirementAge := 31, currentBalance := 0, annualSalary := 80000,
    voluntaryConcessionalContribution := 0, voluntaryNonConcessionalContribution := 0,
    expectedReturnRate := 0, salaryGrowthRate := 0, inflationRate := 0 }

/-- The single record produced by `exInput` when the wall-clock year is 2025. -/
def exRec : SuperYearProjection :=
  { year := 2025, age := 30, startingBalance := 0, sgContributions := 9200,
    voluntaryConcessional := 0, voluntaryNonConcessional := 0, totalConcessional := 9200,
    investmentReturns := 0, taxOnEarnings := 0, endingBalance := 9200,
    concessionalCapExceededBy := none, nonConcessionalCapExceededBy := none }

/-- Spec §8 Example 1: the single record has `sgContributions = 9200` and
`endingBalance = 9200` (used below to discharge concrete hypotheses). -/
theorem exInput_run : projectSuperannuationBalance exInput 2025 = [exRec] := by
  norm_num [projectSuperannuationBalance, accumLoop, accumYear, exInput, exRec,
    SUPER_GUARANTEE_RATE, CONCESSIONAL_CONTRIBUTION_CAP, NON_CONCESSIONAL_CONTRIBUTION_CAP,
    TOTAL_SUPER_BALANCE_LIMIT_FOR_NON_CONCESSIONAL, SUPER_EARNINGS_TAX_RATE, min_def]

/-- Every record produced by the accumulation loop is an `accumYear`
application at some loop state. -/
theorem accumLoop_mem {inputs : SuperannuationInputs} {nowYear : ℤ} :
    ∀ {n : Nat} {age : ℤ} {bal sal : ℚ} {r : SuperYearProjection},
      r ∈ accumLoop inputs nowYear n age bal sal →
      ∃ (a : ℤ) (b s : ℚ), r = accumYear inputs nowYear a b s := by
  intro n
  induction n with
  | zero => intro age bal sal r hr; simp [accumLoop] at hr
  | succ n ih =>
    intro age bal sal r hr
    rw [accumLoop, List.mem_cons] at hr
    rcases hr with h | h
    · exact ⟨age, bal, sal, h⟩
    · exact ih h

/-- The accumulation loop produces exactly as many records as it has fuel. -/
theorem accumLoop_length (inputs : SuperannuationInputs) (nowYear : ℤ) :
    ∀ (n : Nat) (age : ℤ) (bal sal : ℚ),
      (accumLoop inputs nowYear n age bal sal).length = n := by
  intro n
  induction n with
  | zero => intro age bal sal; rfl
  | succ n ih => intro age bal sal; rw [accumLoop]; simp [ih]

/-- The `i`-th record of the accumulation loop has age `age + i`. -/
theorem accumLoop_age (inputs : SuperannuationInputs) (nowYear : ℤ) :
    ∀ (n : Nat) (age : ℤ) (bal sal : ℚ) (i : Nat)
      (h : i < (accumLoop inputs nowYear n age bal sal).length),
      ((accumLoop inputs nowYear n age bal sal).get ⟨i, h⟩).age = age + i := by
  intro n
  induction n with
  | zero => intro age bal sal i h; simp [accumLoop] at h
  | succ n ih =>
    intro age bal sal i h
    rcases i with _ | i
    · simp [accumLoop, accumYear]
    · have h' : i < (accumLoop inputs nowYear n (age + 1)
          (accumYear inputs nowYear age bal sal).endingBalance
          (sal * (1 + inputs.salaryGrowthRate / 100))).length := by
        rw [accumLoop] at h
        simpa using Nat.lt_of_succ_lt_succ h
      have := ih (age + 1) (accumYear inputs nowYear age bal sal).endingBalance
        (sal * (1 + inputs.salaryGrowthRate / 100)) i h'
      simp only [accumLoop, List.get_cons_succ]
      rw [this]
      push_cast
      ring

/-- Claim C1: every accumulation record satisfies
`endingBalance = startingBalance + totalConcessional + voluntaryNonConcessional
(the stored, capped applied amount) + investmentReturns − taxOnEarnings`,
exactly over ℚ. -/
theorem accumulation_balance_invariant (inputs : SuperannuationInputs) (nowYear : ℤ)
    (r : SuperYearProjection) (hr : r ∈ projectSuperannuationBalance inputs nowYear) :
    r.endingBalance = r.startingBalance + r.totalConcessional + r.voluntaryNonConcessional
      + r.investmentReturns - r.taxOnEarnings := by
  obtain ⟨a, b, s, rfl⟩ := accumLoop_mem hr
  simp only [accumYear]

/-- Witness for C1 at the concrete Example-1 input. -/
theorem accumulation_balance_invariant_witness :
    exRec.endingBalance = exRec.startingBalance + exRec.totalConcessional
      + exRec.voluntaryNonConcessional + exRec.investmentReturns - exRec.taxOnEarnings :=
  accumulation_balance_invariant exInput 2025 exRec (by rw [exInput_run]; exact List.mem_singleton.mpr rfl)

/-- Claim C4: the concessional-cap flag is present iff
`sgContributions + voluntaryConcessional > CONCESSIONAL_CONTRIBUTION_CAP`, equals
the exact excess, and the full uncapped total concessional amount still feeds
the balance equation (the breach is informational only). -/
theorem concessional_cap_flag (inputs : SuperannuationInputs) (nowYear : ℤ)
    (r : SuperYearProjection) (hr : r ∈ projectSuperannuationBalance inputs nowYear) :
    r.concessionalCapExceededBy =
      (if CONCESSIONAL_CONTRIBUTION_CAP < r.sgContributions + r.voluntaryConcessional
       then some (r.sgContributions + r.voluntaryConcessional - CONCESSIONAL_CONTRIBUTION_CAP)
       else none) ∧
    r.totalConcessional = r.sgContributions + r.voluntaryConcessional ∧
    r.endingBalance = r.startingBalance + r.totalConcessional + r.voluntaryNonConcessional
      + r.investmentReturns - r.taxOnEarnings := by
  obtain ⟨a, b, s, rfl⟩ := accumLoop_mem hr
  refine ⟨?_, rfl, by simp only [accumYear]⟩
  simp only [accumYear]

/-- Witness for C4 at the concrete Example-1 input. -/
theorem concessional_cap_flag_witness :
    exRec.concessionalCapExceededBy =
      (if CONCESSIONAL_CONTRIBUTION_CAP < exRec.sgContributions + exRec.voluntaryConcessional
       then some (exRec.sgContributions + exRec.voluntaryConcessional - CONCESSIONAL_CONTRIBUTION_CAP)
       else none) ∧
    exRec.totalConcessional = exRec.sgContributions + exRec.voluntaryConcessional ∧
    exRec.endingBalance = exRec.startingBalance + exRec.totalConcessional
      + exRec.voluntaryNonConcessional + exRec.investmentReturns - exRec.taxOnEarnings :=
  concessional_cap_flag exInput 2025 exRec (by rw [exInput_run]; exact List.mem_singleton.mpr rfl)

/-- Claim C5: the effective non-concessional cap of a year is 0 when that
year's starting balance is at or above the TSB limit and the standard cap
otherwise; the stored `voluntaryNonConcessional` is the voluntary amount
clipped to that cap, and the flag is present iff the voluntary amount
exceeds it, carrying the exact excess. -/
theorem non_concessional_cap_flag (inputs : SuperannuationInputs) (nowYear : ℤ)
    (r : SuperYearProjection) (hr : r ∈ projectSuperannuationBalance inputs nowYear) :
    r.voluntaryNonConcessional = min inputs.voluntaryNonConcessionalContribution
      (if TOTAL_SUPER_BALANCE_LIMIT_FOR_NON_CONCESSIONAL ≤ r.startingBalance then 0
       else NON_CONCESSIONAL_CONTRIBUTION_CAP) ∧
    r.nonConcessionalCapExceededBy =
      (if (if TOTAL_SUPER_BALANCE_LIMIT_FOR_NON_CONCESSIONAL ≤ r.startingBalance then (0 : ℚ)
           else NON_CONCESSIONAL_CONTRIBUTION_CAP) < inputs.voluntaryNonConcessionalContribution
       then some (inputs.voluntaryNonConcessionalContribution -
         (if TOTAL_SUPER_BALANCE_LIMIT_FOR_NON_CONCESSIONAL ≤ r.startingBalance then 0
          else NON_CONCESSIONAL_CONTRIBUTION_CAP))
       else none) := by
  obtain ⟨a, b, s, rfl⟩ := accumLoop_mem hr
  exact ⟨rfl, rfl⟩

/-- Witness for C5 at the concrete Example-1 input. -/
theorem non_concessional_cap_flag_witness :
    exRec.voluntaryNonConcessional = min exInput.voluntaryNonConcessionalContribution
      (if TOTAL_SUPER_BALANCE_LIMIT_FOR_NON_CONCESSIONAL ≤ exRec.startingBalance then 0
       else NON_CONCESSIONAL_CONTRIBUTION_CAP) ∧
    exRec.nonConcessionalCapExceededBy =
      (if (if TOTAL_SUPER_BALANCE_LIMIT_FOR_NON_CONCESSIONAL ≤ exRec.startingBalance then (0 : ℚ)
           else NON_CONCESSIONAL_CONTRIBUTION_CAP) < exInput.voluntaryNonConcessionalContribution
       then some (exInput.voluntaryNonConcessionalContribution -
         (if TOTAL_SUPER_BALANCE_LIMIT_FOR_NON_CONCESSIONAL ≤ exRec.startingBalance then 0
          else NON_CONCESSIONAL_CONTRIBUTION_CAP))
       else none) :=
  non_concessional_cap_flag exInput 2025 exRec (by rw [exInput_run]; exact List.mem_singleton.mpr rfl)

/-- Claim C8: `projectSuperannuationBalance` returns exactly
`max 0 (retirementAge − currentAge)` records whose ages are the contiguous
ascending integers starting at `currentAge`; in particular the sequence is
empty whenever `retirementAge ≤ currentAge`. -/
theorem accumulation_length_ages (inputs : SuperannuationInputs) (nowYear : ℤ) :
    ((projectSuperannuationBalance inputs nowYear).length : ℤ)
      = max 0 (inputs.retirementAge - inputs.currentAge) ∧
    ∀ (i : Nat) (h : i < (projectSuperannuationBalance inputs nowYear).length),
      ((projectSuperannuationBalance inputs nowYear).get ⟨i, h⟩).age
        = inputs.currentAge + i := by
  constructor
  · rw [projectSuperannuationBalance, accumLoop_length]
    omega
  · intro i h
    exact accumLoop_age inputs nowYear _ _ _ _ i h

/-- Witness for C8 at the concrete Example-1 input. -/
theorem accumulation_length_ages_witness :
    ((projectSuperannuationBalance exInput 2025).length : ℤ)
      = max 0 (exInput.retirementAge - exInput.currentAge) ∧
    ((projectSuperannuationBalance exInput 2025).get
        ⟨0, by rw [exInput_run]; exact Nat.zero_lt_one⟩).age = exInput.currentAge + 0 :=
  ⟨(accumulation_length_ages exInput 2025).1,
   (accumulation_length_ages exInput 2025).2 0 (by rw [exInput_run]; exact Nat.zero_lt_one)⟩

/-- The drawdown loop never produces more records than it has fuel. -/
theorem drawLoop_length_le (sup : SuperannuationInputs) (post : PostRetirementInputs)
    (nowYear retirementAge : ℤ) :
    ∀ (fuel i : Nat) (bal expenses : ℚ),
      (drawLoop sup post nowYear retirementAge fuel i bal expenses).length ≤ fuel := by
  intro fuel
  induction fuel with
  | zero => intro i bal expenses; exact Nat.le_refl 0
  | succ fuel ih =>
    intro i bal expenses
    simp only [drawLoop]
    split
    · exact Nat.zero_le _
    · split
      · exact Nat.succ_le_succ (Nat.zero_le _)
      · simp only [List.length_cons]
        exact Nat.succ_le_succ (ih _ _ _)

/-- With positive fuel the drawdown loop emits at least one record, provided
the dead guard of source line 138 does not fire (it cannot at the top-level
call, where `i = 0`). -/
theorem drawLoop_ne_nil (sup : SuperannuationInputs) (post : PostRetirementInputs)
    (nowYear retirementAge : ℤ) (fuel i : Nat) (bal expenses : ℚ)
    (hfuel : 0 < fuel) (h : i = 0 ∨ 0 < bal) :
    drawLoop sup post nowYear retirementAge fuel i bal expenses ≠ [] := by
  cases fuel with
  | zero => exact absurd hfuel (Nat.lt_irrefl 0)
  | succ fuel =>
    have hcond : ¬(bal ≤ 0 ∧ 0 < i) := by
      rcases h with h | h
      · subst h; rintro ⟨-, h2⟩; exact Nat.lt_irrefl 0 h2
      · rintro ⟨h1, -⟩; exact absurd h (not_lt.mpr h1)
    simp only [drawLoop, if_neg hcond]
    split
    · simp
    · simp

/-- Every record of the drawdown loop except possibly the last has strictly
positive raw ending balance (otherwise the loop would have stopped there). -/
theorem drawLoop_mid_pos (sup : SuperannuationInputs) (post : PostRetirementInputs)
    (nowYear retirementAge : ℤ) :
    ∀ (fuel i : Nat) (bal expenses : ℚ) (j : Nat) (r : PostRetirementYearProjection),
      (drawLoop sup post nowYear retirementAge fuel i bal expenses)[j]? = some r →
      j + 1 < (drawLoop sup post nowYear retirementAge fuel i bal expenses).length →
      0 < rawEnd r := by
  intro fuel
  induction fuel with
  | zero => intro i bal expenses j r h hj; simp [drawLoop] at h
  | succ fuel ih =>
    intro i bal expenses j r h hj
    by_cases hc : bal ≤ 0 ∧ 0 < i
    · simp [drawLoop, hc] at h
    · by_cases hre : rawEnd (drawYear sup post nowYear retirementAge i bal expenses) ≤ 0
      · simp [drawLoop, hc, hre] at hj
      · simp only [drawLoop, if_neg hc, if_neg hre, List.length_cons] at h hj
        rcases j with _ | j
        · simp only [List.getElem?_cons_zero, Option.some.injEq] at h
          rw [← h]
          exact lt_of_not_le hre
        · rw [List.getElem?_cons_succ] at h
          exact ih (i + 1) _ _ j r h (Nat.lt_of_succ_lt_succ hj)

/-- If the drawdown loop stopped with leftover fuel, its last record's raw
ending balance is ≤ 0 (the line 173 depletion break is the only early exit). -/
theorem drawLoop_last (sup : SuperannuationInputs) (post : PostRetirementInputs)
    (nowYear retirementAge : ℤ) :
    ∀ (fuel i : Nat) (bal expenses : ℚ) (r : PostRetirementYearProjection),
      (drawLoop sup post nowYear retirementAge fuel i bal expenses).length < fuel →
      (drawLoop sup post nowYear retirementAge fuel i bal expenses).getLast? = some r →
      rawEnd r ≤ 0 := by
  intro fuel
  induction fuel with
  | zero => intro i bal expenses r hlen hlast; exact absurd hlen (Nat.not_lt_zero _)
  | succ fuel ih =>
    intro i bal expenses r hlen hlast
    by_cases hc : bal ≤ 0 ∧ 0 < i
    · simp [drawLoop, hc] at hlast
    · by_cases hre : rawEnd (drawYear sup post nowYear retirementAge i bal expenses) ≤ 0
      · simp only [drawLoop, if_neg hc, if_pos hre, List.getLast?_singleton,
          Option.some.injEq] at hlast
        rw [← hlast]
        exact hre
      · revert hlen hlast
        simp only [drawLoop, if_neg hc, if_neg hre, List.length_cons]
        intro hlen hlast
        have hfuel : 0 < fuel := by omega
        have hrest : drawLoop sup post nowYear retirementAge fuel (i + 1)
            (rawEnd (drawYear sup post nowYear retirementAge i bal expenses))
            (expenses * (1 + sup.inflationRate / 100)) ≠ [] :=
          drawLoop_ne_nil sup post nowYear retirementAge fuel (i + 1) _ _ hfuel
            (Or.inr (lt_of_not_le hre))
        obtain ⟨b, t, hbt⟩ := List.exists_cons_of_ne_nil hrest
        rw [hbt] at hlen hlast
        rw [List.getLast?_cons_cons] at hlast
        have hlen' : (b :: t).length < fuel := by
          simp only [List.length_cons] at hlen ⊢
          have := drawLoop_length_le sup post nowYear retirementAge fuel (i + 1)
            (rawEnd (drawYear sup post nowYear retirementAge i bal expenses))
            (expenses * (1 + sup.inflationRate / 100))
          rw [hbt] at this
          omega
        have := ih (i + 1) (rawEnd (drawYear sup post nowYear retirementAge i bal expenses))
          (expenses * (1 + sup.inflationRate / 100)) r
        rw [hbt] at this
        exact this hlen' hlast

/-- Every record of the drawdown loop is a `drawYear` application at some
iteration index and carried balance; the living expenses of the `j`-th
emitted record are the initial ones inflated `j` times. -/
theorem drawLoop_mem (sup : SuperannuationInputs) (post : PostRetirementInputs)
    (nowYear retirementAge : ℤ) :
    ∀ (fuel i : Nat) (bal expenses : ℚ) (r : PostRetirementYearProjection),
      r ∈ drawLoop sup post nowYear retirementAge fuel i bal expenses →
      ∃ (j : Nat) (b : ℚ), r = drawYear sup post nowYear retirementAge (i + j) b
        (expenses * (1 + sup.inflationRate / 100) ^ j) := by
  intro fuel
  induction fuel with
  | zero => intro i bal expenses r hr; simp [drawLoop] at hr
  | succ fuel ih =>
    intro i bal expenses r hr
    by_cases hc : bal ≤ 0 ∧ 0 < i
    · simp [drawLoop, hc] at hr
    · by_cases hre : rawEnd (drawYear sup post nowYear retirementAge i bal expenses) ≤ 0
      · simp only [drawLoop, if_neg hc, if_pos hre, List.mem_singleton] at hr
        exact ⟨0, bal, by simpa using hr⟩
      · simp only [drawLoop, if_neg hc, if_neg hre, List.mem_cons] at hr
        rcases hr with h | h
        · exact ⟨0, bal, by simpa using h⟩
        · obtain ⟨j, b, hb⟩ := ih (i + 1)
            (rawEnd (drawYear sup post nowYear retirementAge i bal expenses))
            (expenses * (1 + sup.inflationRate / 100)) r h
          refine ⟨j + 1, b, ?_⟩
          have h1 : i + (j + 1) = (i + 1) + j := by omega
          have h2 : expenses * (1 + sup.inflationRate / 100) ^ (j + 1)
              = (expenses * (1 + sup.inflationRate / 100)) * (1 + sup.inflationRate / 100) ^ j := by
            ring
          rw [h1, h2]
          exact hb

/-- Retirement-phase assumptions for spec §8 Example 3 (return rate 0,
inflation 0, retiree aged 65). -/
def exSup : SuperannuationInputs :=
  { currentAge := 65, retirementAge := 65, currentBalance := 0, annualSalary := 0,
    voluntaryConcessionalContribution := 0, voluntaryNonConcessionalContribution := 0,
    expectedReturnRate := 0, salaryGrowthRate := 0, inflationRate := 0 }

/-- Spec §8 Example 3 drawdown input: expenses 60000, no other income. -/
def exPost : PostRetirementInputs :=
  { annualLivingExpenses := 60000, otherInvestmentIncome := 0 }

/-- The single (depletion) record of Example 3 at wall-clock year 2025. -/
def exDepRec : PostRetirementYearProjection :=
  { year := 2025, age := 65, startingBalance := 10000, investmentReturns := 0,
    drawdown := 10000, otherIncome := 0, totalIncome := 10000,
    shortfall := some 50000, endingBalance := 0 }

/-- Example 3 depletes in the first year for any positive horizon. -/
theorem exDep_run (fuel : Nat) :
    projectPostRetirement 10000 65 exSup exPost (fuel + 1) 2025 = [exDepRec] := by
  show drawLoop exSup exPost 2025 65 (fuel + 1) 0 10000 exPost.annualLivingExpenses = [exDepRec]
  norm_num [drawLoop, drawYear, rawEnd, exSup, exPost, exDepRec, min_def, max_def]

/-- Claim C2 (amended): the drawdown sequence has at most `maxYears` records;
it has strictly fewer than `maxYears` records exactly when some record at an
index `j` with `j + 1 < maxYears` has raw computed ending balance ≤ 0; any
early-terminated sequence ends with the depletion record; and Example 3
(balance 10000, expenses 60000, no other income, zero returns) yields exactly
one record with drawdown 10000 and stored ending balance 0. -/
theorem drawdown_termination (sup : SuperannuationInputs) (post : PostRetirementInputs)
    (nowYear retirementAge : ℤ) (bal : ℚ) (maxYears : Nat) :
    (projectPostRetirement bal retirementAge sup post maxYears nowYear).length ≤ maxYears ∧
    ((projectPostRetirement bal retirementAge sup post maxYears nowYear).length < maxYears ↔
      ∃ (j : Nat) (h : j < (projectPostRetirement bal retirementAge sup post maxYears nowYear).length),
        j + 1 < maxYears ∧
        rawEnd ((projectPostRetirement bal retirementAge sup post maxYears nowYear).get ⟨j, h⟩) ≤ 0) ∧
    (∀ r, (projectPostRetirement bal retirementAge sup post maxYears nowYear).getLast? = some r →
      (projectPostRetirement bal retirementAge sup post maxYears nowYear).length < maxYears →
      rawEnd r ≤ 0) ∧
    (projectPostRetirement 10000 65 exSup exPost 35 2025).map
      (fun r => (r.drawdown, r.endingBalance)) = [((10000 : ℚ), (0 : ℚ))] := by
  have hlen := drawLoop_length_le sup post nowYear retirementAge maxYears 0 bal
    post.annualLivingExpenses
  refine ⟨hlen, ?_, ?_, ?_⟩
  · constructor
    · intro hshort
      have hpos : 0 < maxYears := Nat.lt_of_le_of_lt (Nat.zero_le _) hshort
      have hne : projectPostRetirement bal retirementAge sup post maxYears nowYear ≠ [] :=
        drawLoop_ne_nil sup post nowYear retirementAge maxYears 0 bal
          post.annualLivingExpenses hpos (Or.inl rfl)
      have hlp : 0 < (projectPostRetirement bal retirementAge sup post maxYears nowYear).length :=
        List.length_pos.mpr hne
      refine ⟨(projectPostRetirement bal retirementAge sup post maxYears nowYear).length - 1,
        Nat.sub_lt hlp Nat.one_pos, by omega, ?_⟩
      have hlast := List.getLast?_eq_getLast_of_ne_nil hne
      have hle := drawLoop_last sup post nowYear retirementAge maxYears 0 bal
        post.annualLivingExpenses _ hshort hlast
      have hget : (projectPostRetirement bal retirementAge sup post maxYears nowYear).get
          ⟨(projectPostRetirement bal retirementAge sup post maxYears nowYear).length - 1,
            Nat.sub_lt hlp Nat.one_pos⟩
          = (projectPostRetirement bal retirementAge sup post maxYears nowYear).getLast hne := by
        rw [List.getLast_eq_getElem]
        rfl
      rw [hget]
      exact hle
    · rintro ⟨j, h, hj, hle⟩
      by_contra hge
      have hj1 : j + 1 < (projectPostRetirement bal retirementAge sup post maxYears nowYear).length := by
        omega
      have := drawLoop_mid_pos sup post nowYear retirementAge maxYears 0 bal
        post.annualLivingExpenses j
        ((projectPostRetirement bal retirementAge sup post maxYears nowYear).get ⟨j, h⟩)
        (List.getElem?_eq_getElem h) hj1
      exact absurd hle (not_le.mpr this)
  · intro r hlast hshort
    exact drawLoop_last sup post nowYear retirementAge maxYears 0 bal
      post.annualLivingExpenses r hshort hlast
  · have h35 := exDep_run 34
    norm_num at h35
    rw [h35]
    norm_num [exDepRec]

/-- Witness for C2 at Example 3 with horizon 2: depletion terminates the
sequence early and the depletion record closes it. -/
theorem drawdown_termination_witness : rawEnd exDepRec ≤ 0 :=
  (drawdown_termination exSup exPost 2025 65 10000 2).2.2.1 exDepRec
    (by have h := exDep_run 1; norm_num at h; rw [h]; rfl)
    (by have h := exDep_run 1; norm_num at h; rw [h]; norm_num)

/-- Counterexample to C2 as stated: with `maxYears = 1` the Example-3 run
contains a record whose computed ending balance is ≤ 0 (the fund is
depleted), yet the sequence still has exactly `maxYears` records, so it does
not terminate before reaching `maxYears` records. -/
theorem drawdown_termination_counterexample :
    (projectPostRetirement 10000 65 exSup exPost 1 2025).length = 1 ∧
    ¬((projectPostRetirement 10000 65 exSup exPost 1 2025).length < 1) ∧
    exDepRec ∈ projectPostRetirement 10000 65 exSup exPost 1 2025 ∧
    rawEnd exDepRec ≤ 0 := by
  have h := exDep_run 0
  norm_num at h
  rw [h]
  refine ⟨rfl, by norm_num, List.mem_singleton.mpr rfl, ?_⟩
  norm_num [rawEnd, exDepRec]

/-- Claim C3: every drawdown record stores
`endingBalance = max 0 (startingBalance + investmentReturns − drawdown)` and a
non-negative drawdown. -/
theorem drawdown_record_invariant (sup : SuperannuationInputs) (post : PostRetirementInputs)
    (nowYear retirementAge : ℤ) (bal : ℚ) (maxYears : Nat)
    (r : PostRetirementYearProjection)
    (hr : r ∈ projectPostRetirement bal retirementAge sup post maxYears nowYear) :
    r.endingBalance = max 0 (r.startingBalance + r.investmentReturns - r.drawdown) ∧
    0 ≤ r.drawdown := by
  obtain ⟨j, b, rfl⟩ := drawLoop_mem sup post nowYear retirementAge maxYears 0 bal
    post.annualLivingExpenses r hr
  exact ⟨rfl, le_max_left 0 _⟩

/-- Witness for C3 at the Example-3 depletion record. -/
theorem drawdown_record_invariant_witness :
    exDepRec.endingBalance
      = max 0 (exDepRec.startingBalance + exDepRec.investmentReturns - exDepRec.drawdown) ∧
    0 ≤ exDepRec.drawdown :=
  drawdown_record_invariant exSup exPost 2025 65 10000 35 exDepRec
    (by have h := exDep_run 34; norm_num at h; rw [h]; exact List.mem_singleton.mpr rfl)

/-- Claim C6: in every drawdown record the shortfall field is present iff
that year's (inflated) living expenses exceed `drawdown + otherIncome`
(= `totalIncome`), and when present equals that exact difference. -/
theorem shortfall_flag (sup : SuperannuationInputs) (post : PostRetirementInputs)
    (nowYear retirementAge : ℤ) (bal : ℚ) (maxYears : Nat)
    (r : PostRetirementYearProjection)
    (hr : r ∈ projectPostRetirement bal retirementAge sup post maxYears nowYear) :
    ∃ j : Nat, r.age = retirementAge + j ∧
      r.totalIncome = r.drawdown + r.otherIncome ∧
      r.shortfall = (if r.totalIncome
          < post.annualLivingExpenses * (1 + sup.inflationRate / 100) ^ j
        then some (post.annualLivingExpenses * (1 + sup.inflationRate / 100) ^ j - r.totalIncome)
        else none) := by
  obtain ⟨j, b, rfl⟩ := drawLoop_mem sup post nowYear retirementAge maxYears 0 bal
    post.annualLivingExpenses r hr
  refine ⟨j, ?_, rfl, ?_⟩
  · simp [drawYear]
  · simp only [drawYear, Nat.zero_add]

/-- Witness for C6 at the Example-3 depletion record (shortfall 50000). -/
theorem shortfall_flag_witness :
    ∃ j : Nat, exDepRec.age = 65 + j ∧
      exDepRec.totalIncome = exDepRec.drawdown + exDepRec.otherIncome ∧
      exDepRec.shortfall = (if exDepRec.totalIncome
          < exPost.annualLivingExpenses * (1 + exSup.inflationRate / 100) ^ j
        then some (exPost.annualLivingExpenses * (1 + exSup.inflationRate / 100) ^ j
          - exDepRec.totalIncome)
        else none) :=
  shortfall_flag exSup exPost 2025 65 10000 35 exDepRec
    (by have h := exDep_run 34; norm_num at h; rw [h]; exact List.mem_singleton.mpr rfl)

/-- Single accumulation year at 7% return: salary 80000, zero starting
balance, no voluntary contributions. -/
def ex7 : SuperannuationInputs :=
  { currentAge := 30, retirementAge := 31, currentBalance := 0, annualSalary := 80000,
    voluntaryConcessionalContribution := 0, voluntaryNonConcessionalContribution := 0,
    expectedReturnRate := 7, salaryGrowthRate := 0, inflationRate := 0 }

/-- The record produced by `ex7` at wall-clock year 2025:
balance-before-returns 9200, returns 644, tax 96.6, ending 9747.4. -/
def ex7Rec : SuperYearProjection :=
  { year := 2025, age := 30, startingBalance := 0, sgContributions := 9200,
    voluntaryConcessional := 0, voluntaryNonConcessional := 0, totalConcessional := 9200,
    investmentReturns := 644, taxOnEarnings := 483 / 5, endingBalance := 48737 / 5,
    concessionalCapExceededBy := none, nonConcessionalCapExceededBy := none }

theorem ex7_run : projectSuperannuationBalance ex7 2025 = [ex7Rec] := by
  norm_num [projectSuperannuationBalance, accumLoop, accumYear, ex7, ex7Rec,
    SUPER_GUARANTEE_RATE, CONCESSIONAL_CONTRIBUTION_CAP, NON_CONCESSIONAL_CONTRIBUTION_CAP,
    TOTAL_SUPER_BALANCE_LIMIT_FOR_NON_CONCESSIONAL, SUPER_EARNINGS_TAX_RATE, min_def]

/-- Single accumulation year at 7% return with a negative starting balance:
balance-before-returns is −1000, returns are −70, tax is 0 (no offset for
negative returns), ending balance −1070. -/
def exNeg : SuperannuationInputs :=
  { currentAge := 30, retirementAge := 31, currentBalance := -1000, annualSalary := 0,
    voluntaryConcessionalContribution := 0, voluntaryNonConcessionalContribution := 0,
    expectedReturnRate := 7, salaryGrowthRate := 0, inflationRate := 0 }

/-- The record produced by `exNeg` at wall-clock year 2025. -/
def exNegRec : SuperYearProjection :=
  { year := 2025, age := 30, startingBalance := -1000, sgContributions := 0,
    voluntaryConcessional := 0, voluntaryNonConcessional := 0, totalConcessional := 0,
    investmentReturns := -70, taxOnEarnings := 0, endingBalance := -1070,
    concessionalCapExceededBy := none, nonConcessionalCapExceededBy := none }

theorem exNeg_run : projectSuperannuationBalance exNeg 2025 = [exNegRec] := by
  norm_num [projectSuperannuationBalance, accumLoop, accumYear, exNeg, exNegRec,
    SUPER_GUARANTEE_RATE, CONCESSIONAL_CONTRIBUTION_CAP, NON_CONCESSIONAL_CONTRIBUTION_CAP,
    TOTAL_SUPER_BALANCE_LIMIT_FOR_NON_CONCESSIONAL, SUPER_EARNINGS_TAX_RATE, min_def]

/-- Claim C7 (amended): in every accumulation year the earnings tax is
`investmentReturns × 0.15` when returns are positive and `0` otherwise; and
in a single-year run at `expectedReturnRate = 7` with balance-before-returns
`B = startingBalance + totalConcessional + voluntaryNonConcessional`, the
returns are exactly `0.07 × B`, and — provided `B` is non-negative — the tax
is `0.15 × 0.07 × B` and the ending balance is `B × 1.0595`, exactly over ℚ. -/
theorem earnings_tax_rule :
    (∀ (inputs : SuperannuationInputs) (nowYear : ℤ) (r : SuperYearProjection),
      r ∈ projectSuperannuationBalance inputs nowYear →
      r.taxOnEarnings =
        (if 0 < r.investmentReturns then r.investmentReturns * SUPER_EARNINGS_TAX_RATE else 0)) ∧
    (∀ (inputs : SuperannuationInputs) (nowYear : ℤ),
      inputs.retirementAge = inputs.currentAge + 1 →
      inputs.expectedReturnRate = 7 →
      ∀ r ∈ projectSuperannuationBalance inputs nowYear,
        r.investmentReturns = (7 / 100) *
          (r.startingBalance + r.totalConcessional + r.voluntaryNonConcessional) ∧
        (0 ≤ r.startingBalance + r.totalConcessional + r.voluntaryNonConcessional →
          r.taxOnEarnings = (15 / 100) * ((7 / 100) *
            (r.startingBalance + r.totalConcessional + r.voluntaryNonConcessional)) ∧
          r.endingBalance = (r.startingBalance + r.totalConcessional + r.voluntaryNonConcessional)
            * (10595 / 10000))) := by
  constructor
  · intro inputs nowYear r hr
    obtain ⟨a, b, s, rfl⟩ := accumLoop_mem hr
    simp only [accumYear]
  · intro inputs nowYear hage hrate r hr
    obtain ⟨a, b, s, rfl⟩ := accumLoop_mem hr
    simp only [accumYear, hrate, SUPER_EARNINGS_TAX_RATE]
    constructor
    · ring
    · intro hB
      rcases hB.eq_or_lt with hB0 | hBpos
      · rw [if_neg (by rw [← hB0]; norm_num)]
        rw [← hB0]
        norm_num
      · rw [if_pos (by positivity)]
        constructor
        · ring
        · ring

/-- Witness for C7 at `ex7` (balance-before-returns 9200 ≥ 0). -/
theorem earnings_tax_rule_witness :
    ex7Rec.taxOnEarnings =
      (if 0 < ex7Rec.investmentReturns then ex7Rec.investmentReturns * SUPER_EARNINGS_TAX_RATE
       else 0) ∧
    ex7Rec.investmentReturns = (7 / 100) *
      (ex7Rec.startingBalance + ex7Rec.totalConcessional + ex7Rec.voluntaryNonConcessional) ∧
    ex7Rec.taxOnEarnings = (15 / 100) * ((7 / 100) *
      (ex7Rec.startingBalance + ex7Rec.totalConcessional + ex7Rec.voluntaryNonConcessional)) ∧
    ex7Rec.endingBalance =
      (ex7Rec.startingBalance + ex7Rec.totalConcessional + ex7Rec.voluntaryNonConcessional)
        * (10595 / 10000) := by
  have hmem : ex7Rec ∈ projectSuperannuationBalance ex7 2025 := by
    rw [ex7_run]; exact List.mem_singleton.mpr rfl
  have h1 := earnings_tax_rule.1 ex7 2025 ex7Rec hmem
  have h2 := earnings_tax_rule.2 ex7 2025 rfl rfl ex7Rec hmem
  have hB : (0 : ℚ) ≤ ex7Rec.startingBalance + ex7Rec.totalConcessional
      + ex7Rec.voluntaryNonConcessional := by norm_num [ex7Rec]
  exact ⟨h1, h2.1, (h2.2 hB).1, (h2.2 hB).2⟩

/-- Counterexample to C7 as stated: in the single-year rate-7 run `exNeg` the
balance-before-returns is `B = −1000`, and the produced record violates both
`taxOnEarnings = 0.15 × 0.07 × B` (the tax is 0, since returns are negative)
and `endingBalance = B × 1.0595` (it is `B × 1.07 = −1070`). -/
theorem earnings_tax_rule_counterexample :
    exNegRec ∈ projectSuperannuationBalance exNeg 2025 ∧
    exNeg.retirementAge = exNeg.currentAge + 1 ∧
    exNeg.expectedReturnRate = 7 ∧
    exNegRec.startingBalance + exNegRec.totalConcessional + exNegRec.voluntaryNonConcessional
      = -1000 ∧
    exNegRec.taxOnEarnings ≠ (15 / 100) * ((7 / 100) * (-1000 : ℚ)) ∧
    exNegRec.endingBalance ≠ (-1000 : ℚ) * (10595 / 10000) := by
  refine ⟨by rw [exNeg_run]; exact List.mem_singleton.mpr rfl, rfl, rfl, ?_, ?_, ?_⟩
  · norm_num [exNegRec]
  · norm_num [exNegRec]
  · norm_num [exNegRec]

/-- Every non-`year` field of the accumulation output is independent of the
wall-clock year. -/
theorem accumLoop_strip (inputs : SuperannuationInputs) (ny₁ ny₂ : ℤ) :
    ∀ (n : Nat) (age : ℤ) (bal sal : ℚ),
      (accumLoop inputs ny₁ n age bal sal).map stripSuperYear
        = (accumLoop inputs ny₂ n age bal sal).map stripSuperYear := by
  intro n
  induction n with
  | zero => intro age bal sal; rfl
  | succ n ih =>
    intro age bal sal
    simp only [accumLoop, List.map_cons, List.cons.injEq]
    refine ⟨rfl, ?_⟩
    rw [show (accumYear inputs ny₁ age bal sal).endingBalance
        = (accumYear inputs ny₂ age bal sal).endingBalance from rfl]
    exact ih _ _ _

/-- Every non-`year` field of the drawdown output is independent of the
wall-clock year. -/
theorem drawLoop_strip (sup : SuperannuationInputs) (post : PostRetirementInputs)
    (ny₁ ny₂ retirementAge : ℤ) :
    ∀ (fuel i : Nat) (bal expenses : ℚ),
      (drawLoop sup post ny₁ retirementAge fuel i bal expenses).map stripPostYear
        = (drawLoop sup post ny₂ retirementAge fuel i bal expenses).map stripPostYear := by
  intro fuel
  induction fuel with
  | zero => intro i bal expenses; rfl
  | succ fuel ih =>
    intro i bal expenses
    have hre_eq : rawEnd (drawYear sup post ny₂ retirementAge i bal expenses)
        = rawEnd (drawYear sup post ny₁ retirementAge i bal expenses) := rfl
    by_cases hc : bal ≤ 0 ∧ 0 < i
    · simp [drawLoop, hc]
    · by_cases hre : rawEnd (drawYear sup post ny₁ retirementAge i bal expenses) ≤ 0
      · simp only [drawLoop, if_neg hc, hre_eq, if_pos hre]
        rfl
      · simp only [drawLoop, if_neg hc, hre_eq, if_neg hre, List.map_cons, List.cons.injEq]
        exact ⟨rfl, ih (i + 1) _ _⟩

/-- Claim C9 (amended): both projectors are deterministic functions of their
inputs and the current wall-clock year; every field except `year` is
independent of the wall clock, and with equal wall-clock years the outputs
are identical in every field. -/
theorem projector_determinism (inputs : SuperannuationInputs) (ny₁ ny₂ : ℤ)
    (bal : ℚ) (retirementAge : ℤ) (post : PostRetirementInputs) (maxYears : Nat) :
    (projectSuperannuationBalance inputs ny₁).map stripSuperYear
      = (projectSuperannuationBalance inputs ny₂).map stripSuperYear ∧
    (projectPostRetirement bal retirementAge inputs post maxYears ny₁).map stripPostYear
      = (projectPostRetirement bal retirementAge inputs post maxYears ny₂).map stripPostYear ∧
    (ny₁ = ny₂ →
      projectSuperannuationBalance inputs ny₁ = projectSuperannuationBalance inputs ny₂ ∧
      projectPostRetirement bal retirementAge inputs post maxYears ny₁
        = projectPostRetirement bal retirementAge inputs post maxYears ny₂) := by
  refine ⟨accumLoop_strip inputs ny₁ ny₂ _ _ _ _,
    drawLoop_strip inputs post ny₁ ny₂ retirementAge _ _ _ _, ?_⟩
  rintro rfl
  exact ⟨rfl, rfl⟩

/-- Witness for C9: at equal inputs and equal wall-clock years both
projector outputs coincide. -/
theorem projector_determinism_witness :
    projectSuperannuationBalance exInput 2025 = projectSuperannuationBalance exInput 2025 ∧
    projectPostRetirement 10000 65 exInput exPost 35 2025
      = projectPostRetirement 10000 65 exInput exPost 35 2025 :=
  (projector_determinism exInput 2025 2025 10000 65 exPost 35).2.2 rfl

/-- The record of `exInput` when the wall-clock year is 2026: identical to
`exRec` except for the `year` field. -/
def exRec2026 : SuperYearProjection :=
  { exRec with year := 2026 }

theorem exInput_run2026 : projectSuperannuationBalance exInput 2026 = [exRec2026] := by
  norm_num [projectSuperannuationBalance, accumLoop, accumYear, exInput, exRec2026, exRec,
    SUPER_GUARANTEE_RATE, CONCESSIONAL_CONTRIBUTION_CAP, NON_CONCESSIONAL_CONTRIBUTION_CAP,
    TOTAL_SUPER_BALANCE_LIMIT_FOR_NON_CONCESSIONAL, SUPER_EARNINGS_TAX_RATE, min_def]

/-- Counterexample to C9 as stated: the same input projected in wall-clock
years 2025 and 2026 yields different sequences (the `year` fields differ),
so the output does depend on external state (the wall clock). -/
theorem clock_dependence_counterexample :
    projectSuperannuationBalance exInput 2025 ≠ projectSuperannuationBalance exInput 2026 := by
  rw [exInput_run, exInput_run2026]
  norm_num [exRec, exRec2026]

/-- Two accumulation years at −150% return from a positive balance: the
first year ends at −500, which is carried forward unchanged as the second
year's starting balance. -/
def exDown : SuperannuationInputs :=
  { currentAge := 30, retirementAge := 32, currentBalance := 1000, annualSalary := 0,
    voluntaryConcessionalContribution := 0, voluntaryNonConcessionalContribution := 0,
    expectedReturnRate := -150, salaryGrowthRate := 0, inflationRate := 0 }

/-- The one-year variant of `exDown`: its final record's ending balance is
the negative value −500. -/
def exDown1 : SuperannuationInputs :=
  { currentAge := 30, retirementAge := 31, currentBalance := 1000, annualSalary := 0,
    voluntaryConcessionalContribution := 0, voluntaryNonConcessionalContribution := 0,
    expectedReturnRate := -150, salaryGrowthRate := 0, inflationRate := 0 }

/-- Claim C10: the accumulation phase applies no non-negativity floor — at
return rate −150% a positive balance of 1000 ends its first year at −500,
that negative balance is carried forward unchanged as the next year's
starting balance, and in the one-year variant the final record handed to the
drawdown phase itself has the strictly negative ending balance −500. -/
theorem no_accumulation_floor :
    (projectSuperannuationBalance exDown 2025).map (fun r => (r.startingBalance, r.endingBalance))
      = [((1000 : ℚ), (-500 : ℚ)), ((-500 : ℚ), (275 / 2 : ℚ))] ∧
    ((-500 : ℚ) < 0) ∧
    (projectSuperannuationBalance exDown1 2025).map (fun r => (r.startingBalance, r.endingBalance))
      = [((1000 : ℚ), (-500 : ℚ))] := by
  refine ⟨?_, by norm_num, ?_⟩ <;>
    norm_num [projectSuperannuationBalance, accumLoop, accumYear, exDown, exDown1,
      SUPER_GUARANTEE_RATE, CONCESSIONAL_CONTRIBUTION_CAP, NON_CONCESSIONAL_CONTRIBUTION_CAP,
      TOTAL_SUPER_BALANCE_LIMIT_FOR_NON_CONCESSIONAL, SUPER_EARNINGS_TAX_RATE, min_def]

end FinApp
